import Mathlib

/-!
# Verification of the GameCube controller emulator (`gamecube_control.ino`)

A shallow embedding of the controller-emulation engine:

* `GCStatus` — the 8-byte packed controller state (struct `GCStatus`);
* the Move Queue (`MoveQueue` plus `MoveQueue_clear`, `MoveQueue_add_move`,
  `MoveQueue_get_status`, `MoveQueue_next`);
* the move-code decoder and queue builder from the serial branch of `loop()`;
* the command dispatcher from the switch in `loop()`;
* the two spin-wait loops of the hand-written receive routine `gc_get`.

Machine integers are modelled as `Nat` (unsigned char / unsigned int, with
explicit `% 2 ^ 32` where wraparound matters) and `Int` (C `int`).
-/

/-- The 8 bytes sent to the GameCube, in wire order.  Each field is an
`unsigned char` (value < 256 whenever produced by the program).
`data1` bits: 0,0,0,start,y,x,b,a; `data2` bits: 1,L,R,Z,Dup,Ddown,Dright,Dleft. -/
structure GCStatus where
  data1 : Nat
  data2 : Nat
  stick_x : Nat
  stick_y : Nat
  cstick_x : Nat
  cstick_y : Nat
  left : Nat
  right : Nat
deriving DecidableEq, Repr

/-- `initial_gc_status = {0, 0, 128, 128, 128, 128, 0, 0}`: the neutral state
(sticks centered at 128, no buttons, triggers at 0). -/
def initial_gc_status : GCStatus :=
  { data1 := 0, data2 := 0, stick_x := 128, stick_y := 128,
    cstick_x := 128, cstick_y := 128, left := 0, right := 0 }

/-- The 8 bytes of a `GCStatus` in the order they sit in memory / go on the wire. -/
def gc_status_bytes (s : GCStatus) : List Nat :=
  [s.data1, s.data2, s.stick_x, s.stick_y, s.cstick_x, s.cstick_y, s.left, s.right]

/-- Fixed response to the identify (0x00) command. -/
def identify_response : List Nat := [0x09, 0x00, 0x20]

/-- Fixed response to the origins (0x41) command. -/
def origin_response : List Nat :=
  [0x00, 0x80, 0x7d, 0x87, 0x82, 0x85, 0x1f, 0x22, 0x00, 0x00]

/-- The command switch of `loop()`: `0x00` sends `identify_response`,
`0x41` sends `origin_response`, `0x40` sends the current `gc_status`
snapshot, every other byte sends nothing.  `none` models "no response". -/
def loop_dispatch (from_gc : Nat) (gc_status : GCStatus) : Option (List Nat) :=
  if from_gc = 0x00 then some identify_response
  else if from_gc = 0x41 then some origin_response
  else if from_gc = 0x40 then some (gc_status_bytes gc_status)
  else none

/-- One slot of the move queue: a controller state plus an
`unsigned int` repeat count (kept `< 2 ^ 32`). -/
structure MoveEntry where
  status : GCStatus
  count : Nat
deriving DecidableEq, Repr

def MOVE_QUEUE_MAX : Nat := 10

/-- `MoveQueue`: a 10-slot array of entries plus `int n` (number of filled
slots) and `int pos` (playback cursor).  The `queue` list always has length
10, mirroring the fixed C array. -/
structure MoveQueue where
  queue : List MoveEntry
  n : Int
  pos : Int
deriving DecidableEq, Repr

/-- The zero-initialised static `move_queue` (C static storage: every byte 0). -/
def move_queue_init : MoveQueue :=
  { queue := List.replicate MOVE_QUEUE_MAX
      { status := { data1 := 0, data2 := 0, stick_x := 0, stick_y := 0,
                    cstick_x := 0, cstick_y := 0, left := 0, right := 0 },
        count := 0 },
    n := 0, pos := 0 }

/-- `MoveQueue_clear`: sets `n = 0`, `pos = 0` and resets slot 0's status to
neutral (its count is left untouched, exactly as in the C code). -/
def MoveQueue_clear (mq : MoveQueue) : MoveQueue :=
  { mq with
    n := 0, pos := 0,
    queue := mq.queue.set 0
      { (mq.queue.getD 0 { status := initial_gc_status, count := 0 }) with
        status := initial_gc_status } }

/-- `MoveQueue_add_move`: appends `(status, count)` at slot `n` unless the
queue already holds `MOVE_QUEUE_MAX` entries, in which case it is a no-op.
The count is an `unsigned int`, hence the `% 2 ^ 32`. -/
def MoveQueue_add_move (mq : MoveQueue) (status : GCStatus) (count : Nat) : MoveQueue :=
  if mq.n ≥ (MOVE_QUEUE_MAX : Int) then mq
  else
    { mq with
      queue := mq.queue.set mq.n.toNat { status := status, count := count % 2 ^ 32 },
      n := mq.n + 1 }

/-- `MoveQueue_get_status`: the status at the cursor, or the neutral state
when the cursor is out of range (`pos < 0` or `pos ≥ n`). -/
def MoveQueue_get_status (mq : MoveQueue) : GCStatus :=
  if mq.pos < 0 ∨ mq.pos ≥ mq.n then initial_gc_status
  else (mq.queue.getD mq.pos.toNat { status := initial_gc_status, count := 0 }).status

/-- `MoveQueue_next`: if the cursor has run past the last entry, clear the
queue; otherwise decrement the current entry's count (unsigned wraparound)
and, when it hits 0, advance the cursor.  Returns the updated queue together
with the status `MoveQueue_get_status` reports afterwards. -/
def MoveQueue_next (mq : MoveQueue) : MoveQueue × GCStatus :=
  let mq1 :=
    if mq.pos ≥ mq.n then MoveQueue_clear mq
    else
      let e := mq.queue.getD mq.pos.toNat { status := initial_gc_status, count := 0 }
      let e1 := { e with count := (e.count + (2 ^ 32 - 1)) % 2 ^ 32 }
      let mq2 := { mq with queue := mq.queue.set mq.pos.toNat e1 }
      if e1.count = 0 then { mq2 with pos := mq2.pos + 1 } else mq2
  (mq1, MoveQueue_get_status mq1)

/-- `int delta_x = ((b & 0x38) >> 3) - 2`: horizontal displacement decoded
from a move-code byte. -/
def decode_delta_x (b : Nat) : Int :=
  (((b &&& 0x38) >>> 3 : Nat) : Int) - 2

/-- `int rot = (b & 0x06) >> 1`: number of clockwise rotations decoded from
a move-code byte. -/
def decode_rot (b : Nat) : Int :=
  (((b &&& 0x06) >>> 1 : Nat) : Int)

/-- `bool down_fast = (b & 0x01)`: fast-drop flag decoded from a move-code
byte (C truthiness: any nonzero value is `true`). -/
def decode_down_fast (b : Nat) : Bool :=
  b &&& 0x01 ≠ 0

/-- One pass of the `do { ... } while(delta_x != 0 || rot != 0)` body in the
serial branch of `loop()`: starting from a neutral `tmp_status`, push the
stick if `delta_x ≠ 0`, set a rotation button according to `rot`, append the
transient state with count 1, and append a neutral release with count 1 when
the loop will run again.  Returns the updated queue and the new
`(delta_x, rot)`.  `tmp_status` is reset to neutral before the next pass in
the C code, so it needs no explicit threading. -/
def loop_build_step (mq : MoveQueue) (delta_x rot : Int) : MoveQueue × Int × Int :=
  let tmp0 := initial_gc_status
  let step1 : GCStatus × Int :=
    if delta_x > 0 then ({ tmp0 with stick_x := 255 }, delta_x - 1)
    else if delta_x < 0 then ({ tmp0 with stick_x := 0 }, delta_x + 1)
    else (tmp0, delta_x)
  let tmp1 := step1.1
  let delta1 := step1.2
  let step2 : GCStatus × Int :=
    if rot = 1 ∨ rot = 2 then ({ tmp1 with data1 := tmp1.data1 ||| 0x04 }, rot - 1)
    else if rot = 3 then ({ tmp1 with data1 := tmp1.data1 ||| 0x01 }, 0)
    else (tmp1, rot)
  let tmp2 := step2.1
  let rot1 := step2.2
  let mq1 := MoveQueue_add_move mq tmp2 1
  let mq2 :=
    if delta1 ≠ 0 ∨ rot1 ≠ 0 then MoveQueue_add_move mq1 initial_gc_status 1 else mq1
  (mq2, delta1, rot1)

/-- The full `do ... while(delta_x != 0 || rot != 0)` loop.  `fuel` is a pure
termination device: for every decoded move code (`delta_x ∈ -2..5`,
`rot ∈ 0..3`) the C loop finishes within 5 passes, so any `fuel ≥ 5` gives
the loop's exact behaviour (the fuel-exhausted branch is never reached). -/
def loop_build_loop (fuel : Nat) (mq : MoveQueue) (delta_x rot : Int) : MoveQueue :=
  match fuel with
  | 0 => mq
  | fuel' + 1 =>
    let r := loop_build_step mq delta_x rot
    if r.2.1 ≠ 0 ∨ r.2.2 ≠ 0 then loop_build_loop fuel' r.1 r.2.1 r.2.2 else r.1

/-- The serial branch of `loop()` applied to move-code byte `b`, starting
from queue `mq0`: decode, clear the queue, run the press/release loop, append
the 8-count fast-drop entry when requested, and append the final neutral. -/
def loop_build_from (mq0 : MoveQueue) (b : Nat) : MoveQueue :=
  let delta_x := decode_delta_x b
  let rot := decode_rot b
  let down_fast := decode_down_fast b
  let mq1 := MoveQueue_clear mq0
  let mq2 := loop_build_loop 16 mq1 delta_x rot
  let mq3 :=
    if down_fast then MoveQueue_add_move mq2 { initial_gc_status with stick_y := 0 } 8
    else mq2
  MoveQueue_add_move mq3 initial_gc_status 1

/-- The move queue the program holds after receiving byte `b` on the host
link (building always starts by clearing, so slots beyond `n` merely keep
whatever the previous build left; we build from the pristine static queue). -/
def build_move_queue (b : Nat) : MoveQueue :=
  loop_build_from move_queue_init b

/-- The entries a queue actually holds: slots `0 .. n-1`. -/
def built_entries (mq : MoveQueue) : List MoveEntry :=
  mq.queue.take mq.n.toNat

/-- Sum of the repeat counts of the held entries. -/
def queue_total_count (mq : MoveQueue) : Nat :=
  ((built_entries mq).map (fun e => e.count)).sum

/-- `k` successive calls to `MoveQueue_next`, keeping the queue state. -/
def advanceN : Nat → MoveQueue → MoveQueue
  | 0, mq => mq
  | k + 1, mq => advanceN k (MoveQueue_next mq).1

/-- Outcome of one of `gc_get`'s spin-wait loops: the line reached the level
being waited for at sample index `t`, or the loop gave up (`retval = 0`). -/
inductive WaitResult where
  | success (t : Nat)
  | timeout
deriving DecidableEq, Repr

/-- The first spin-wait of `gc_get` (labels `L_1`/`L_2` of the assembly):
wait for the line to go low.  `line t` is the level sampled at iteration `t`
(`true` = high), `c` is the 8-bit counter `r24` (initialised to 64).  Per
iteration: `sbis`/`rjmp` exits to the read phase when the line is low;
otherwise `subi r24,1` decrements the counter and `brne` loops while it is
nonzero — and when it reaches zero the unconditional `jmp L_1` loops as
well, so the `ldi retval,0` timeout exit that follows is unreachable and the
loop continues no matter what the counter holds.  `fuel` only bounds the
unrolling (`none` = still spinning after `fuel` iterations). -/
def gc_wait_falling (line : Nat → Bool) : Nat → Nat → Nat → Option WaitResult
  | 0, _, _ => none
  | fuel + 1, t, c =>
    if line t = false then some (WaitResult.success t)
    else gc_wait_falling line fuel (t + 1) ((c + 255) % 256)

/-- The second spin-wait of `gc_get` (label `L_4` of the assembly): wait for
the line to return high with counter `r24` initialised to 64.  Here the
timeout branch is live: `sbic`/`rjmp` exits on a high line, otherwise the
counter is decremented and `brne` loops while it is nonzero; when it reaches
zero the code falls through to `ldi retval,0` — failure. -/
def gc_wait_rising (line : Nat → Bool) : Nat → Nat → Nat → Option WaitResult
  | 0, _, _ => none
  | fuel + 1, t, c =>
    if line t = true then some (WaitResult.success t)
    else
      if (c + 255) % 256 ≠ 0 then gc_wait_rising line fuel (t + 1) ((c + 255) % 256)
      else some WaitResult.timeout

/-- Structural invariant of the move queue: the cursor and the fill count
stay inside the 10-slot array (`0 ≤ pos ≤ n ≤ 10`, with the backing list of
length exactly `MOVE_QUEUE_MAX = 10`). -/
def queue_inv (mq : MoveQueue) : Prop :=
  0 ≤ mq.pos ∧ mq.pos ≤ mq.n ∧ mq.n ≤ 10 ∧ mq.queue.length = 10

instance queue_inv_decidable (mq : MoveQueue) : Decidable (queue_inv mq) := by
  unfold queue_inv; infer_instance

set_option maxRecDepth 10000

/-! ## Helper lemmas -/

/-- With the line held high, the initial falling-edge wait of `gc_get` never
exits, whatever the counter holds and however far it is unrolled. -/
theorem gc_wait_falling_high_spins (fuel : Nat) :
    ∀ t c, gc_wait_falling (fun _ => true) fuel t c = none := by
  induction fuel with
  | zero => intro t c; rfl
  | succ fuel ih =>
    intro t c
    simp only [gc_wait_falling]
    exact ih (t + 1) ((c + 255) % 256)

/-- Once the cursor is at or past the fill count, `MoveQueue_get_status`
reports the neutral state. -/
theorem get_status_drained (mq : MoveQueue) (h : mq.n ≤ mq.pos) :
    MoveQueue_get_status mq = initial_gc_status := by
  unfold MoveQueue_get_status
  rw [if_pos (Or.inr h)]

/-- Once the cursor is at or past the fill count, `MoveQueue_next` clears the
queue, so the cursor stays at or past the fill count. -/
theorem next_preserves_drained (mq : MoveQueue) (h : mq.n ≤ mq.pos) :
    (MoveQueue_next mq).1.n ≤ (MoveQueue_next mq).1.pos := by
  simp only [MoveQueue_next, MoveQueue_clear, if_pos h]
  exact le_refl 0

/-- From any drained position, every later `MoveQueue_get_status` (under any
number of further `MoveQueue_next` calls) reports the neutral state. -/
theorem advanceN_drained_neutral (k : Nat) (mq : MoveQueue) (h : mq.n ≤ mq.pos) :
    MoveQueue_get_status (advanceN k mq) = initial_gc_status := by
  induction k generalizing mq with
  | zero => exact get_status_drained mq h
  | succ k ih => exact ih (MoveQueue_next mq).1 (next_preserves_drained mq h)

/-! ## Claims -/

/-- C1: for every valid move code (decoded displacement in `-2..2`, rotation
code in `0..3`, any fast-drop flag), the move queue built from it is
non-empty and its final entry is the neutral controller state (sticks 128,
buttons 0, triggers 0) with repeat count 1. -/
theorem C1_final_entry_neutral (b : Fin 256)
    (hd : -2 ≤ decode_delta_x b.val ∧ decode_delta_x b.val ≤ 2)
    (hr : 0 ≤ decode_rot b.val ∧ decode_rot b.val ≤ 3) :
    built_entries (build_move_queue b.val) ≠ [] ∧
      (built_entries (build_move_queue b.val)).getLast? =
        some { status := initial_gc_status, count := 1 } := by
  revert b; decide

/-- C1 witness: the theorem instantiated at move code `0x10`
(displacement 0, rotation 0, fast-drop false). -/
theorem C1_final_entry_neutral_witness :
    built_entries (build_move_queue (0x10 : Fin 256).val) ≠ [] ∧
      (built_entries (build_move_queue (0x10 : Fin 256).val)).getLast? =
        some { status := initial_gc_status, count := 1 } :=
  C1_final_entry_neutral 0x10 (by decide) (by decide)

/-- C3 counterexample: move code `0x10` decodes to displacement 0, rotation
0, fast-drop false, yet the built queue holds two entries, not one (the loop
body appends one neutral entry and the trailing "clear controller one last
time" append adds a second). -/
theorem C3_counterexample :
    decode_delta_x 0x10 = 0 ∧ decode_rot 0x10 = 0 ∧
      decode_down_fast 0x10 = false ∧
      (built_entries (build_move_queue 0x10)).length = 2 ∧
      ¬ (built_entries (build_move_queue 0x10)).length = 1 := by decide

/-- C3 (amended): a move code decoding to displacement 0, rotation 0 and
fast-drop false builds a queue of exactly two entries, both the neutral
state with repeat count 1. -/
theorem C3_zero_move_two_entries (b : Fin 256)
    (hd : decode_delta_x b.val = 0) (hr : decode_rot b.val = 0)
    (hf : decode_down_fast b.val = false) :
    built_entries (build_move_queue b.val) =
      [{ status := initial_gc_status, count := 1 },
       { status := initial_gc_status, count := 1 }] := by
  revert b; decide

/-- C3 witness: the amended theorem instantiated at move code `0x10`. -/
theorem C3_zero_move_two_entries_witness :
    built_entries (build_move_queue (0x10 : Fin 256).val) =
      [{ status := initial_gc_status, count := 1 },
       { status := initial_gc_status, count := 1 }] :=
  C3_zero_move_two_entries 0x10 (by decide) (by decide) (by decide)

/-- C4 counterexample: move code `0x20` decodes to displacement +2, rotation
0, fast-drop false, yet the built queue holds 4 entries, not 5: the second
stick press is the final loop pass, so no release is appended after it
before the single trailing neutral. -/
theorem C4_counterexample :
    decode_delta_x 0x20 = 2 ∧ decode_rot 0x20 = 0 ∧
      decode_down_fast 0x20 = false ∧
      (built_entries (build_move_queue 0x20)).length = 4 ∧
      ¬ (built_entries (build_move_queue 0x20)).length = 5 := by decide

/-- C4 (amended): a move code decoding to displacement +2, rotation 0 and
fast-drop false builds exactly 4 entries in order: (stick-right with
`stick_x = 255`, repeat 1), (neutral, repeat 1), (stick-right, repeat 1),
(neutral, repeat 1) — the final press is followed only by the single
trailing neutral, not by a release and then a further neutral. -/
theorem C4_plus_two_four_entries (b : Fin 256)
    (hd : decode_delta_x b.val = 2) (hr : decode_rot b.val = 0)
    (hf : decode_down_fast b.val = false) :
    built_entries (build_move_queue b.val) =
      [{ status := { initial_gc_status with stick_x := 255 }, count := 1 },
       { status := initial_gc_status, count := 1 },
       { status := { initial_gc_status with stick_x := 255 }, count := 1 },
       { status := initial_gc_status, count := 1 }] := by
  revert b; decide

/-- C4 witness: the amended theorem instantiated at move code `0x20`. -/
theorem C4_plus_two_four_entries_witness :
    built_entries (build_move_queue (0x20 : Fin 256).val) =
      [{ status := { initial_gc_status with stick_x := 255 }, count := 1 },
       { status := initial_gc_status, count := 1 },
       { status := { initial_gc_status with stick_x := 255 }, count := 1 },
       { status := initial_gc_status, count := 1 }] :=
  C4_plus_two_four_entries 0x20 (by decide) (by decide) (by decide)

/-- C5: for every move code with rotation code 3, exactly one built entry
has the anticlockwise button bit (`data1 & 0x01`, the A button) set — it is
the first entry, and the entry right after it exists with the bit clear (one
press followed by a release, never three presses).  For rotation codes 1 and
2 no entry ever has the anticlockwise bit; the only button bit that appears
is the clockwise one (`data1` is 0 or `0x04` and `data2` is 0 throughout). -/
theorem C5_rotation_press_release (b : Fin 256) :
    (decode_rot b.val = 3 →
      ((built_entries (build_move_queue b.val)).countP
          (fun e => e.status.data1 &&& 0x01 != 0) = 1 ∧
        ((built_entries (build_move_queue b.val)).getD 0
            { status := initial_gc_status, count := 0 }).status.data1 &&& 0x01 ≠ 0 ∧
        2 ≤ (built_entries (build_move_queue b.val)).length ∧
        ((built_entries (build_move_queue b.val)).getD 1
            { status := initial_gc_status, count := 0 }).status.data1 &&& 0x01 = 0)) ∧
    (decode_rot b.val = 1 ∨ decode_rot b.val = 2 →
      ∀ e ∈ built_entries (build_move_queue b.val),
        (e.status.data1 = 0 ∨ e.status.data1 = 0x04) ∧ e.status.data2 = 0) := by
  revert b; decide

/-- C5 witness: the first conjunct instantiated at move code 6 (rotation
code 3), and the second at move code 2 (rotation code 1). -/
theorem C5_rotation_press_release_witness :
    (built_entries (build_move_queue (6 : Fin 256).val)).countP
        (fun e => e.status.data1 &&& 0x01 != 0) = 1 ∧
      (∀ e ∈ built_entries (build_move_queue (2 : Fin 256).val),
        (e.status.data1 = 0 ∨ e.status.data1 = 0x04) ∧ e.status.data2 = 0) :=
  ⟨((C5_rotation_press_release 6).1 (by decide)).1,
   (C5_rotation_press_release 2).2 (by decide)⟩

/-- C2 counterexample: with the line held high, the initial falling-edge
wait of `gc_get` is still spinning after 1000 iterations — far beyond its
64-count budget — and never returns the failure value; by contrast the
second wait, whose timeout branch is reachable, gives up within the same
budget under a line held low. -/
theorem C2_counterexample :
    gc_wait_falling (fun _ => true) 1000 0 64 = none ∧
      gc_wait_rising (fun _ => false) 1000 0 64 = some WaitResult.timeout := by
  constructor
  · exact gc_wait_falling_high_spins 1000 0 64
  · decide

/-- C2 (amended): the initial falling-edge wait of `gc_get` has no reachable
timeout: the unconditional `jmp` back into the loop makes the
`ldi retval,0` exit dead code, so with the line held high the wait spins
forever (for every unrolling bound, from every counter value).  The bounded
64-iteration spin-wait that fails with 0 on timeout exists only in the
subsequent wait for the line to return high; the falling-edge wait does exit
(successfully) as soon as the line is sampled low. -/
theorem C2_initial_wait_never_times_out :
    (∀ fuel t c, gc_wait_falling (fun _ => true) fuel t c = none) ∧
      gc_wait_rising (fun _ => false) 1000 0 64 = some WaitResult.timeout ∧
      gc_wait_falling (fun _ => false) 1 7 64 = some (WaitResult.success 7) := by
  refine ⟨gc_wait_falling_high_spins, by decide, by decide⟩

/-- C6 counterexample: build the queue from move code `0x10` (two entries,
total repeat count 2).  After exactly 2 calls to `MoveQueue_next` the queue
still holds its 2 entries with the cursor parked at 2 — not the cleared
state (`n = 0`, `pos = 0` as produced by `MoveQueue_clear`); clearing only
happens on the following call. -/
theorem C6_counterexample :
    (advanceN (queue_total_count (build_move_queue 0x10)) (build_move_queue 0x10)).n = 2 ∧
      (advanceN (queue_total_count (build_move_queue 0x10)) (build_move_queue 0x10)).pos = 2 ∧
      ¬ ((advanceN (queue_total_count (build_move_queue 0x10)) (build_move_queue 0x10)).n = 0 ∧
         (advanceN (queue_total_count (build_move_queue 0x10)) (build_move_queue 0x10)).pos = 0) := by
  decide

/-- C6 (amended): from any freshly built queue, applying `MoveQueue_next`
exactly sum-of-repeat-counts times leaves the cursor exactly at the entry
count (one past the last entry) rather than in the cleared state; the
cleared state (`n = 0`, `pos = 0`) is reached on the following call.  From
that drained point on, `MoveQueue_get_status` returns the neutral state
indefinitely, under any number of further `MoveQueue_next` calls. -/
theorem C6_drain_then_neutral_forever (b : Fin 256) :
    (advanceN (queue_total_count (build_move_queue b.val)) (build_move_queue b.val)).pos =
      (advanceN (queue_total_count (build_move_queue b.val)) (build_move_queue b.val)).n ∧
    (MoveQueue_next
        (advanceN (queue_total_count (build_move_queue b.val)) (build_move_queue b.val))).1.n = 0 ∧
    (MoveQueue_next
        (advanceN (queue_total_count (build_move_queue b.val)) (build_move_queue b.val))).1.pos = 0 ∧
    ∀ k, MoveQueue_get_status
        (advanceN k
          (advanceN (queue_total_count (build_move_queue b.val)) (build_move_queue b.val))) =
      initial_gc_status := by
  have hb : ∀ b : Fin 256,
      (advanceN (queue_total_count (build_move_queue b.val)) (build_move_queue b.val)).pos =
        (advanceN (queue_total_count (build_move_queue b.val)) (build_move_queue b.val)).n ∧
      (MoveQueue_next
          (advanceN (queue_total_count (build_move_queue b.val)) (build_move_queue b.val))).1.n = 0 ∧
      (MoveQueue_next
          (advanceN (queue_total_count (build_move_queue b.val)) (build_move_queue b.val))).1.pos = 0 := by
    decide
  refine ⟨(hb b).1, (hb b).2.1, (hb b).2.2, ?_⟩
  intro k
  exact advanceN_drained_neutral k _ (hb b).1.ge

/-- C7: appending to a move queue already holding 10 entries leaves the
queue completely unchanged — same slots, same count, same cursor; nothing is
evicted or overwritten. -/
theorem C7_append_at_capacity_noop (mq : MoveQueue) (s : GCStatus) (c : Nat)
    (h : mq.n = (MOVE_QUEUE_MAX : Int)) :
    MoveQueue_add_move mq s c = mq := by
  unfold MoveQueue_add_move
  rw [if_pos h.ge]

/-- C7 witness: move code `0x3F` (displacement +5, rotation 3, fast-drop)
fills the queue to its 10-entry capacity; appending an 11th entry to it
changes nothing. -/
theorem C7_append_at_capacity_noop_witness :
    MoveQueue_add_move (build_move_queue 0x3F) initial_gc_status 1 =
      build_move_queue 0x3F :=
  C7_append_at_capacity_noop (build_move_queue 0x3F) initial_gc_status 1 (by decide)

/-- C8: for every move-code byte, the decoded displacement is
`((b >> 3) & 7) - 2` and lies in `-2..5`, the decoded rotation count is
`(b >> 1) & 3` and lies in `0..3`, and the decoded fast-drop flag is bit 0
of the byte. -/
theorem C8_decode_bit_layout (b : Fin 256) :
    decode_delta_x b.val = (((b.val >>> 3) &&& 7 : Nat) : Int) - 2 ∧
      (-2 ≤ decode_delta_x b.val ∧ decode_delta_x b.val ≤ 5) ∧
      decode_rot b.val = (((b.val >>> 1) &&& 3 : Nat) : Int) ∧
      (0 ≤ decode_rot b.val ∧ decode_rot b.val ≤ 3) ∧
      (decode_down_fast b.val = true ↔ b.val &&& 1 = 1) := by
  revert b; decide

/-- C9: the command dispatcher answers `0x00` with the fixed 3-byte identify
record, `0x41` with the fixed 10-byte origin record, `0x40` with the current
8-byte controller-state snapshot, and each of these responses is sent for
exactly that byte; every other byte gets no response at all. -/
theorem C9_dispatch_exact (b : Fin 256) (s : GCStatus) :
    (loop_dispatch b.val s = some identify_response ↔ b.val = 0x00) ∧
      (loop_dispatch b.val s = some origin_response ↔ b.val = 0x41) ∧
      (loop_dispatch b.val s = some (gc_status_bytes s) ↔ b.val = 0x40) ∧
      (b.val ≠ 0x00 → b.val ≠ 0x41 → b.val ≠ 0x40 →
        loop_dispatch b.val s = none) := by
  by_cases h0 : b.val = 0x00
  · simp [loop_dispatch, h0, identify_response, origin_response, gc_status_bytes]
  · by_cases h1 : b.val = 0x41
    · simp [loop_dispatch, h0, h1, identify_response, origin_response, gc_status_bytes]
    · by_cases h2 : b.val = 0x40
      · simp [loop_dispatch, h0, h1, h2, identify_response, origin_response,
          gc_status_bytes]
      · simp [loop_dispatch, h0, h1, h2]

/-- C9 witness: the dispatcher instantiated at the unrecognised byte `0x12`
with the neutral snapshot sends nothing. -/
theorem C9_dispatch_exact_witness :
    loop_dispatch (0x12 : Fin 256).val initial_gc_status = none :=
  (C9_dispatch_exact 0x12 initial_gc_status).2.2.2 (by decide) (by decide) (by decide)

/-- C10: the pristine queue satisfies the structural invariant
`0 ≤ pos ≤ n ≤ 10` (with the backing array of length 10), every queue
operation preserves it, under it any slot `MoveQueue_get_status` or
`MoveQueue_next` reads lies inside the 10-slot array, and
`MoveQueue_get_status` is total: whenever the cursor is out of range it
returns the neutral state. -/
theorem C10_queue_invariant (mq : MoveQueue) (s : GCStatus) (c : Nat)
    (h : queue_inv mq) :
    queue_inv move_queue_init ∧
      queue_inv (MoveQueue_clear mq) ∧
      queue_inv (MoveQueue_add_move mq s c) ∧
      queue_inv (MoveQueue_next mq).1 ∧
      (mq.pos < mq.n → mq.pos.toNat < mq.queue.length) ∧
      (¬ (0 ≤ mq.pos ∧ mq.pos < mq.n) →
        MoveQueue_get_status mq = initial_gc_status) := by
  obtain ⟨h1, h2, h3, h4⟩ := h
  refine ⟨by decide, ?_, ?_, ?_, ?_, ?_⟩
  · refine ⟨le_refl 0, le_refl 0, by show (0 : Int) ≤ 10; norm_num, ?_⟩
    show (mq.queue.set 0 _).length = 10
    simpa [List.length_set] using h4
  · by_cases hge : mq.n ≥ (MOVE_QUEUE_MAX : Int)
    · rw [MoveQueue_add_move, if_pos hge]
      exact ⟨h1, h2, h3, h4⟩
    · rw [MoveQueue_add_move, if_neg hge]
      simp only [MOVE_QUEUE_MAX] at hge
      refine ⟨h1, ?_, ?_, ?_⟩
      · show mq.pos ≤ mq.n + 1
        omega
      · show mq.n + 1 ≤ 10
        omega
      · show (mq.queue.set mq.n.toNat _).length = 10
        simpa [List.length_set] using h4
  · by_cases hge : mq.pos ≥ mq.n
    · simp only [MoveQueue_next, if_pos hge, MoveQueue_clear]
      refine ⟨le_refl 0, le_refl 0, by norm_num, ?_⟩
      show (mq.queue.set 0 _).length = 10
      simpa [List.length_set] using h4
    · simp only [MoveQueue_next, if_neg hge]
      split
      · refine ⟨?_, ?_, h3, ?_⟩
        · show (0 : Int) ≤ mq.pos + 1
          omega
        · show mq.pos + 1 ≤ mq.n
          omega
        · show (mq.queue.set mq.pos.toNat _).length = 10
          simpa [List.length_set] using h4
      · refine ⟨h1, h2, h3, ?_⟩
        show (mq.queue.set mq.pos.toNat _).length = 10
        simpa [List.length_set] using h4
  · intro hlt
    rw [h4]
    omega
  · intro hn
    rw [MoveQueue_get_status, if_pos (by omega : mq.pos < 0 ∨ mq.pos ≥ mq.n)]

/-- C10 witness: the invariant facts instantiated at the pristine queue. -/
theorem C10_queue_invariant_witness :
    queue_inv move_queue_init ∧
      queue_inv (MoveQueue_clear move_queue_init) ∧
      queue_inv (MoveQueue_add_move move_queue_init initial_gc_status 1) ∧
      queue_inv (MoveQueue_next move_queue_init).1 ∧
      (move_queue_init.pos < move_queue_init.n →
        move_queue_init.pos.toNat < move_queue_init.queue.length) ∧
      (¬ (0 ≤ move_queue_init.pos ∧ move_queue_init.pos < move_queue_init.n) →
        MoveQueue_get_status move_queue_init = initial_gc_status) :=
  C10_queue_invariant move_queue_init initial_gc_status 1 (by decide)
